import Mathlib

/-!
Verification development for the Dress_App clothing-analysis backend.

The Python sources embedded here are:
- `ai_backend/enhanced_clothing_detector.py` (region/mask color analysis,
  heuristic attribute inference, YOLO person-box fallback),
- `ai_backend/fashion_classification_system.py` (clothing-type and style
  taxonomy, color analysis, item selection),
- `ai_backend/color_analyzer.py` (dominant-color extraction, color naming),
- `ai_backend/simple_clothing_detector.py` (mobile-optimized color analysis).

Pixels are RGB triples of naturals; percentages and confidences are rationals
(Python floats are modelled as exact rationals). The KMeans clusterer, the
random pixel subsampling and the image resizing are external collaborators
(scikit-learn / numpy / OpenCV), so they appear as abstract function
parameters; everything downstream of them is translated statement by
statement from the source.
-/

namespace DressApp

/-- Python string primitive: the first character list occurs at the head of
the second (`hay.startswith(needle)` shape, used to build substring tests). -/
def leadsWith : List Char → List Char → Bool
  | [], _ => true
  | _ :: _, [] => false
  | a :: as, b :: bs => a == b && leadsWith as bs

/-- Python `needle in hay` on strings: contiguous substring membership. -/
def hasSub (n : List Char) : List Char → Bool
  | [] => leadsWith n []
  | c :: hs => leadsWith n (c :: hs) || hasSub n hs

/-- Python `s.lower()`. -/
def lowerStr (s : List Char) : List Char := s.map Char.toLower

/-- Python `any(kw in s for kw in kws)`. -/
def anyKeyword (kws : List String) (s : List Char) : Bool :=
  kws.any fun kw => hasSub kw.data s

/-- An RGB pixel or cluster centroid, channels in `[0, 255]` in the source. -/
structure RGB where
  r : ℕ
  g : ℕ
  b : ℕ
deriving DecidableEq, Repr

/-- One dominant color extracted from a region: the dict
`{'name': ..., 'rgb': ..., 'percentage': ...}` built by the analyzers. -/
structure ColorSample where
  name : String
  rgb : RGB
  percentage : ℚ
deriving DecidableEq, Repr

/-- The descending order used by `colors.sort(key=lambda x: x['percentage'],
reverse=True)`. -/
def percGE (a b : ColorSample) : Prop := b.percentage ≤ a.percentage

instance : DecidableRel percGE :=
  fun a b => inferInstanceAs (Decidable (b.percentage ≤ a.percentage))

instance : IsTotal ColorSample percGE :=
  ⟨fun a b => le_total b.percentage a.percentage⟩

instance : IsTrans ColorSample percGE :=
  ⟨fun _ _ _ hab hbc => le_trans hbc hab⟩

/-- Python's stable `list.sort(..., reverse=True)` on the percentage key,
modelled as a stable insertion sort with respect to `percGE`. -/
def sortByPercentageDesc (l : List ColorSample) : List ColorSample :=
  List.insertionSort percGE l

/-- Python `round(x, 1)` modelled over ℚ: round to the nearest tenth. -/
def roundTo1 (q : ℚ) : ℚ := (round (q * 10) : ℤ) / 10

/-- One KMeans cluster as consumed by the analyzers: centroid (already
`astype(int)`) and the number of member pixels (`np.sum(labels == i)`). -/
structure Cluster where
  center : RGB
  size : ℕ
deriving Repr

/-- The per-cluster loop shared by every analyzer: for each cluster compute
`percentage = cluster_size / total_pixels * 100`, skip clusters whose
percentage is below the threshold, name the centroid, round the stored
percentage to one decimal, then sort descending by percentage. -/
def clusterColorList (getName : RGB → String) (thr : ℚ) (total : ℕ)
    (cs : List Cluster) : List ColorSample :=
  sortByPercentageDesc <| cs.filterMap fun c =>
    if ((c.size : ℚ) / (total : ℚ)) * 100 < thr then none
    else some { name := getName c.center, rgb := c.center
                percentage := roundTo1 (((c.size : ℚ) / (total : ℚ)) * 100) }

/-- `len(np.unique(pixels.reshape(-1, pixels.shape[-1])))` exactly as written
in the source: `np.unique` is called without `axis=0`, so it flattens the
`(N, 3)` array and counts distinct scalar channel values, not distinct
colors. -/
def uniqueChannelValues (pixels : List RGB) : ℕ :=
  ((pixels.map fun p => [p.r, p.g, p.b]).flatten).dedup.length

/-- `n_clusters = min(maxClusters, len(np.unique(pixels.reshape(-1, 3))))`. -/
def nClustersOf (maxClusters : ℕ) (pixels : List RGB) : ℕ :=
  min maxClusters (uniqueChannelValues pixels)

/-- The spec's `count_of_distinct_colors` (§4.1 step 3): the number of
distinct RGB triples among the pixels. Stated from the spec's words to be
compared against `nClustersOf`, which is what the code computes. -/
def distinctColorCount (pixels : List RGB) : ℕ := pixels.dedup.length

/-- `EnhancedClothingDetector._analyze_region_colors`: empty region gives
`[]`; subsample to 1000 pixels when larger; `n_clusters = min(3, ...)`;
threshold 10; sort descending. `sample` models `np.random.choice`, `km`
models the fitted KMeans clusters. -/
def analyzeRegionColors (getName : RGB → String) (sample : List RGB → List RGB)
    (km : ℕ → List RGB → List Cluster) (region : List RGB) : List ColorSample :=
  if region.isEmpty then []
  else
    let pixels := if region.length > 1000 then sample region else region
    let n := nClustersOf 3 pixels
    if n < 1 then []
    else clusterColorList getName 10 pixels.length (km n pixels)

/-- `EnhancedClothingDetector._analyze_masked_colors`: the pixels under the
segmentation mask; empty mask gives `[]`; `n_clusters = min(5, ...)`;
threshold 5; sort descending. -/
def analyzeMaskedColors (getName : RGB → String)
    (km : ℕ → List RGB → List Cluster) (maskPixels : List RGB) : List ColorSample :=
  if maskPixels.isEmpty then []
  else
    let n := nClustersOf 5 maskPixels
    if n < 1 then []
    else clusterColorList getName 5 maskPixels.length (km n maskPixels)

/-- `FashionClassificationSystem._analyze_colors`: empty region gives `[]`;
drop near-black/near-white pixels (any channel ≤ 15 or ≥ 240) unless fewer
than 10 survive; subsample to 2000; `n_clusters = min(5, ...)`; threshold 5;
sort descending. -/
def analyzeColorsFCS (getName : RGB → String) (sample : List RGB → List RGB)
    (km : ℕ → List RGB → List Cluster) (region : List RGB) : List ColorSample :=
  if region.isEmpty then []
  else
    let filtered := region.filter fun p =>
      (15 < p.r && p.r < 240) && (15 < p.g && p.g < 240) && (15 < p.b && p.b < 240)
    let kept := if filtered.length < 10 then region else filtered
    let pixels := if kept.length > 2000 then sample kept else kept
    let n := nClustersOf 5 pixels
    if n < 1 then []
    else clusterColorList getName 5 pixels.length (km n pixels)

/-- `ColorAnalyzer._get_dominant_colors`: `resize` models the conditional
downscale to 300px; drop pixels with any channel ≤ 20 or ≥ 235 unless none
survive; `n_clusters = min(5, ...)`; threshold 5 (`min_percentage`); sort
descending. -/
def getDominantColors (getName : RGB → String) (resize : List RGB → List RGB)
    (km : ℕ → List RGB → List Cluster) (image : List RGB) : List ColorSample :=
  let pixels := resize image
  let filtered := pixels.filter fun p =>
    (20 < p.r && p.r < 235) && (20 < p.g && p.g < 235) && (20 < p.b && p.b < 235)
  let kept := if filtered.isEmpty then pixels else filtered
  let n := nClustersOf 5 kept
  if n < 1 then []
  else clusterColorList getName 5 kept.length (km n kept)

/-- `SimpleClothingDetector._analyze_region_colors`: empty region gives `[]`;
`resize` models the conditional downscale to 100px; subsample to 1000;
`n_clusters = min(3, ...)`; threshold 15; sort descending. -/
def analyzeRegionColorsSimple (getName : RGB → String)
    (resize : List RGB → List RGB) (sample : List RGB → List RGB)
    (km : ℕ → List RGB → List Cluster) (region : List RGB) : List ColorSample :=
  if region.isEmpty then []
  else
    let resized := resize region
    let pixels := if resized.length > 1000 then sample resized else resized
    let n := nClustersOf 3 pixels
    if n < 1 then []
    else clusterColorList getName 15 pixels.length (km n pixels)

/-- `EnhancedClothingDetector._predict_style_heuristic`: keyword ladder on the
lowercased label, then a color-based formal rule, defaulting to casual. -/
def predictStyleHeuristic (className : List Char) (colors : List ColorSample) : String :=
  if anyKeyword ["suit", "blazer", "tie", "dress shirt"] (lowerStr className) then "formal"
  else if anyKeyword ["sneakers", "sports", "athletic", "hoodie"] (lowerStr className) then "sporty"
  else if anyKeyword ["jeans", "t-shirt", "casual"] (lowerStr className) then "casual"
  else if !colors.isEmpty &&
      colors.any (fun c => ["black", "white", "gray", "navy"].any (· == c.name)) then "formal"
  else "casual"

/-- `EnhancedClothingDetector._predict_season_heuristic`: keyword ladder on
the lowercased label (the colors argument is accepted but unused, as in the
source), defaulting to all-season. -/
def predictSeasonHeuristic (className : List Char) (_colors : List ColorSample) : String :=
  if anyKeyword ["coat", "jacket", "sweater", "boots"] (lowerStr className) then "winter"
  else if anyKeyword ["shorts", "sandals", "tank", "summer"] (lowerStr className) then "summer"
  else if anyKeyword ["cardigan", "light jacket"] (lowerStr className) then "spring-fall"
  else "all-season"

/-- `EnhancedClothingDetector._predict_material_heuristic`: keyword ladder on
the lowercased label, defaulting to cotton. -/
def predictMaterialHeuristic (className : List Char) : String :=
  if hasSub "jean".data (lowerStr className) then "denim"
  else if anyKeyword ["leather", "boots"] (lowerStr className) then "leather"
  else if anyKeyword ["cotton", "t-shirt"] (lowerStr className) then "cotton"
  else if anyKeyword ["wool", "sweater"] (lowerStr className) then "wool"
  else if anyKeyword ["silk", "dress"] (lowerStr className) then "silk"
  else "cotton"

/-- Grayscale luminance of a pixel, the BGR2GRAY weights written as exact
rationals. -/
def luma (p : RGB) : ℚ := (299 * p.r + 587 * p.g + 114 * p.b : ℚ) / 1000

/-- Population mean of a rational list (`np.mean`). -/
def listMeanQ (l : List ℚ) : ℚ := l.sum / l.length

/-- Population variance of a rational list (`np.var`). -/
def listVarQ (l : List ℚ) : ℚ :=
  ((l.map fun x => (x - listMeanQ l) ^ 2).sum) / l.length

/-- `EnhancedClothingDetector._predict_pattern_heuristic`: empty masked
region gives solid; grayscale variance above 1000 gives patterned. -/
def predictPatternHeuristic (maskPixels : List RGB) : String :=
  if maskPixels.isEmpty then "solid"
  else if listVarQ (maskPixels.map luma) > 1000 then "patterned"
  else "solid"

/-- `EnhancedClothingDetector._predict_fit_heuristic`: bounding extent of the
mask's true coordinates; `height / width > 2.5` gives tight, `< 1.5` gives
loose, otherwise (and for empty or degenerate masks) regular. -/
def predictFitHeuristic (maskCoords : List (ℕ × ℕ)) : String :=
  match maskCoords with
  | [] => "regular"
  | c :: cs =>
    let rows := (c :: cs).map Prod.fst
    let cols := (c :: cs).map Prod.snd
    let height := rows.foldl Nat.max c.1 - rows.foldl Nat.min c.1
    let width := cols.foldl Nat.max c.2 - cols.foldl Nat.min c.2
    if height = 0 ∨ width = 0 then "regular"
    else if (height : ℚ) / (width : ℚ) > 5 / 2 then "tight"
    else if (height : ℚ) / (width : ℚ) < 3 / 2 then "loose"
    else "regular"

/-- The heuristic attribute dict built by
`EnhancedClothingDetector._get_heuristic_attributes` (together with the
`category` key added by its caller, which is just the label). -/
structure FashionAttributes where
  dominant_color : String
  style : String
  season : String
  material : String
  pattern : String
  fit : String
  detection_method : String
deriving DecidableEq, Repr

/-- `EnhancedClothingDetector._get_heuristic_attributes`: analyze the masked
colors, take the top color name (or unknown), and run the five heuristic
predictors. `maskPixels` are the image pixels under the mask and `maskCoords`
the mask's true coordinates. -/
def getHeuristicAttributes (getName : RGB → String)
    (km : ℕ → List RGB → List Cluster) (className : List Char)
    (maskPixels : List RGB) (maskCoords : List (ℕ × ℕ)) : FashionAttributes :=
  let colors := analyzeMaskedColors getName km maskPixels
  { dominant_color := match colors with | [] => "unknown" | c :: _ => c.name
    style := predictStyleHeuristic className colors
    season := predictSeasonHeuristic className colors
    material := predictMaterialHeuristic className
    pattern := predictPatternHeuristic maskPixels
    fit := predictFitHeuristic maskCoords
    detection_method := "heuristic" }

/-- The attribute dict built by
`EnhancedClothingDetector._get_basic_attributes`. -/
structure BasicAttributes where
  category : String
  style : String
  season : String
  material : String
  pattern : String
  fit : String
  detection_method : String
deriving DecidableEq, Repr

/-- `EnhancedClothingDetector._get_basic_attributes`: fixed defaults for the
no-segmentation fallback path; note the material default is the string
`unknown`. -/
def getBasicAttributes (className : String) : BasicAttributes :=
  { category := className, style := "casual", season := "all-season"
    material := "unknown", pattern := "solid", fit := "regular"
    detection_method := "basic" }

/-- `FashionClassificationSystem.clothing_types`: the clothing-type table,
in source order (Python dicts preserve insertion order). -/
def clothing_types : List (String × List String) := [
  ("t-shirt", ["t-shirt", "tee", "tank", "tank top", "basic tee"]),
  ("button-shirt", ["button-up", "dress shirt", "button shirt", "formal shirt"]),
  ("polo", ["polo shirt", "polo", "collared shirt"]),
  ("hoodie", ["hoodie", "sweatshirt", "pullover"]),
  ("sweater", ["sweater", "jumper", "cardigan", "knitwear"]),
  ("blazer", ["blazer", "sport coat", "suit jacket"]),
  ("jacket", ["jacket", "coat", "outerwear"]),
  ("blouse", ["blouse", "silk shirt", "dressy top"]),
  ("crop-top", ["crop top", "cropped shirt", "belly shirt"]),
  ("tube-top", ["tube top", "bandeau", "strapless top"]),
  ("jeans", ["jeans", "denim pants", "blue jeans"]),
  ("cargo-pants", ["cargo pants", "utility pants", "tactical pants"]),
  ("dress-pants", ["dress pants", "slacks", "trousers", "formal pants"]),
  ("chinos", ["chinos", "khakis", "casual pants"]),
  ("shorts", ["shorts", "short pants"]),
  ("cargo-shorts", ["cargo shorts", "utility shorts"]),
  ("skirt", ["skirt", "mini skirt", "maxi skirt", "pencil skirt"]),
  ("leggings", ["leggings", "tights", "yoga pants"]),
  ("joggers", ["joggers", "track pants", "sweatpants"]),
  ("dress", ["dress", "gown", "frock"]),
  ("maxi-dress", ["maxi dress", "long dress"]),
  ("mini-dress", ["mini dress", "short dress"]),
  ("cocktail-dress", ["cocktail dress", "party dress"]),
  ("sneakers", ["sneakers", "trainers", "athletic shoes"]),
  ("boots", ["boots", "ankle boots", "combat boots"]),
  ("loafers", ["loafers", "slip-on shoes", "moccasins"]),
  ("heels", ["high heels", "pumps", "stilettos"]),
  ("sandals", ["sandals", "flip-flops", "slides"]),
  ("hat", ["hat", "cap", "beanie", "baseball cap"]),
  ("bag", ["bag", "handbag", "purse", "backpack"]),
  ("belt", ["belt", "waist belt", "leather belt"])]

/-- `FashionClassificationSystem.style_mappings`: the 21 style categories and
their item lists, in source order. -/
def style_mappings : List (String × List String) := [
  ("casual", ["t-shirt", "jeans", "hoodie", "sneakers", "shorts", "cargo-shorts",
    "joggers", "tank-top", "polo", "chinos", "sandals", "cap"]),
  ("classy-elegant", ["blazer", "dress-pants", "button-shirt", "blouse", "pencil-skirt",
    "cocktail-dress", "heels", "loafers", "silk-blouse", "tailored-pants"]),
  ("business-office", ["blazer", "dress-pants", "button-shirt", "blouse", "suit-jacket",
    "formal-shirt", "pencil-skirt", "dress-shoes", "briefcase"]),
  ("business-casual", ["chinos", "loafers", "cardigan", "polo", "blouse", "khakis",
    "casual-blazer", "dress-pants", "button-shirt"]),
  ("streetwear", ["t-shirt", "hoodie", "sneakers", "cap", "graphic-tee", "joggers",
    "track-jacket", "oversized-hoodie", "basketball-shorts"]),
  ("athleisure", ["leggings", "joggers", "track-jacket", "athletic-shoes", "sports-bra",
    "tank-top", "sweatshirt", "running-shoes", "yoga-pants"]),
  ("bohemian", ["maxi-dress", "flowy-dress", "peasant-blouse", "fringe-jacket",
    "sandals", "wide-leg-pants", "crochet-top", "earthy-tones"]),
  ("minimalist", ["simple-tee", "straight-pants", "clean-blazer", "white-shirt",
    "black-pants", "neutral-dress", "simple-sneakers"]),
  ("preppy", ["polo", "pleated-skirt", "loafers", "cardigan", "khakis",
    "button-down", "tennis-shoes", "blazer"]),
  ("grunge", ["flannel", "ripped-jeans", "band-tee", "combat-boots",
    "leather-jacket", "torn-pants", "oversized-shirt"]),
  ("vintage-retro", ["vintage-dress", "flare-jeans", "retro-tee", "vintage-jacket",
    "classic-sneakers", "mom-jeans", "vintage-blouse"]),
  ("y2k", ["baby-tee", "low-rise-jeans", "platform-shoes", "metallic-top",
    "mini-skirt", "sparkly-accessories", "crop-top"]),
  ("edgy-punk", ["leather-jacket", "ripped-jeans", "studded-belt", "combat-boots",
    "band-tee", "plaid-pants", "spiked-accessories"]),
  ("goth", ["black-dress", "corset", "platform-boots", "black-lace",
    "dark-makeup", "black-jacket", "gothic-accessories"]),
  ("chic", ["tailored-blazer", "high-quality-jeans", "silk-blouse", "designer-bag",
    "stylish-heels", "trendy-dress", "fashion-forward-pieces"]),
  ("romantic", ["floral-dress", "ruffled-blouse", "pastel-colors", "lace-top",
    "flowing-skirt", "delicate-jewelry", "soft-cardigan"]),
  ("cottagecore", ["flowy-dress", "puff-sleeves", "apron", "peasant-blouse",
    "midi-skirt", "cardigans", "vintage-inspired"]),
  ("artsy-eclectic", ["colorful-prints", "unusual-silhouettes", "bold-patterns",
    "artistic-pieces", "unique-combinations", "statement-pieces"]),
  ("avant-garde", ["architectural-shapes", "asymmetrical-pieces", "experimental-design",
    "unconventional-silhouettes", "futuristic-elements"]),
  ("resort-cruise", ["linen-sets", "kaftans", "straw-hats", "flowy-pants",
    "beach-dress", "sandals", "light-fabrics"]),
  ("evening-formal", ["gown", "tuxedo", "cocktail-dress", "formal-suit",
    "dress-shoes", "elegant-heels", "formal-accessories"])]

/-- `FashionClassificationSystem._classify_clothing_type`: exact
case-insensitive match against the variation lists, then substring match in
either direction, then a keyword fallback, and finally the raw label. -/
def classifyClothingType (detectedLabel : String) : String :=
  let dl := lowerStr detectedLabel.data
  match clothing_types.find?
      (fun tv => tv.2.any fun v => lowerStr v.data == dl) with
  | some tv => tv.1
  | none =>
    match clothing_types.find?
        (fun tv => tv.2.any fun v =>
          hasSub (lowerStr v.data) dl || hasSub dl (lowerStr v.data)) with
    | some tv => tv.1
    | none =>
      if anyKeyword ["shirt", "top", "blouse"] dl then "t-shirt"
      else if anyKeyword ["pants", "jeans", "trouser"] dl then "jeans"
      else if anyKeyword ["dress", "gown"] dl then "dress"
      else if anyKeyword ["shoe", "boot", "sneaker"] dl then "sneakers"
      else if anyKeyword ["jacket", "coat"] dl then "jacket"
      else detectedLabel

/-- `FashionClassificationSystem._infer_styles_from_type`: keyword-based
style inference; every branch returns a non-empty list, ending in the
`["casual"]` default. -/
def inferStylesFromType (clothingType : String) : List String :=
  let tl := lowerStr clothingType.data
  if anyKeyword ["t-shirt", "jeans", "hoodie", "sneakers"] tl then ["casual", "streetwear"]
  else if anyKeyword ["blazer", "dress-pants", "button-shirt"] tl then
    ["business-office", "classy-elegant"]
  else if anyKeyword ["dress", "gown", "heels"] tl then ["classy-elegant", "evening-formal"]
  else if anyKeyword ["athletic", "sports", "gym"] tl then ["athleisure"]
  else if anyKeyword ["vintage", "retro"] tl then ["vintage-retro"]
  else ["casual"]

/-- `FashionClassificationSystem._get_applicable_styles`: every style whose
item list contains the type (exact membership), falling back to
`_infer_styles_from_type` when no style matched. -/
def getApplicableStyles (clothingType : String) : List String :=
  let direct := style_mappings.filterMap fun si =>
    if clothingType ∈ si.2 then some si.1 else none
  if direct.isEmpty then inferStylesFromType clothingType else direct

/-- A bounding box as produced by the detectors:
`{x1, y1, x2, y2, width, height}`. -/
structure BBox where
  x1 : ℤ
  y1 : ℤ
  x2 : ℤ
  y2 : ℤ
  width : ℤ
  height : ℤ
deriving DecidableEq, Repr

/-- One detection produced by the YOLO person-box fallback: label,
confidence, bounding box and region colors. -/
structure Detection where
  label : String
  confidence : ℚ
  bounding_box : BBox
  colors : List ColorSample
deriving DecidableEq, Repr

/-- `upper_y2 = y1 + int(height * 0.6)`: the bottom coordinate of the upper
(shirt) region of a person box; Python's `int(height * 0.6)` is the floor
(upstream boxes satisfy `y2 ≥ y1`, where truncation and floor agree). -/
def upperCut (y1 y2 : ℤ) : ℤ := y1 + ⌊((y2 - y1 : ℤ) : ℚ) * 6 / 10⌋

/-- `lower_y1 = y1 + int(height * 0.4)`: the top coordinate of the lower
(pants) region of a person box. -/
def lowerCut (y1 y2 : ℤ) : ℤ := y1 + ⌊((y2 - y1 : ℤ) : ℚ) * 4 / 10⌋

/-- The per-person branch of `EnhancedClothingDetector._detect_with_yolo`
that runs when no clothing item was detected: the upper 60% of the person
box is analyzed and labeled shirt, the lower 60% (from 40% of the height
down) is analyzed and labeled pants, each at confidence `conf * 0.8` and
each appended only when its region color analysis is non-empty. `analyze`
models `self._analyze_region_colors(opencv_image[y1:y2, x1:x2])` as a
function of the region coordinates. -/
def personFallback (analyze : ℤ → ℤ → ℤ → ℤ → List ColorSample)
    (x1 y1 x2 y2 : ℤ) (conf : ℚ) : List Detection :=
  let width := x2 - x1
  let upperY2 := upperCut y1 y2
  let upperColors := analyze x1 y1 x2 upperY2
  let lowerY1 := lowerCut y1 y2
  let lowerColors := analyze x1 lowerY1 x2 y2
  (if upperColors.isEmpty then [] else
    [{ label := "shirt", confidence := conf * 8 / 10
       bounding_box := ⟨x1, y1, x2, upperY2, width, upperY2 - y1⟩
       colors := upperColors }]) ++
  (if lowerColors.isEmpty then [] else
    [{ label := "pants", confidence := conf * 8 / 10
       bounding_box := ⟨x1, lowerY1, x2, y2, width, y2 - lowerY1⟩
       colors := lowerColors }])

/-- The two shapes `analyze_selected_item` can return: `{'success': False,
'error': ...}` or `{'success': True, 'analysis': ...}`. -/
inductive SelectResult (β : Type) where
  | failure (error : String)
  | success (analysis : β)
deriving DecidableEq, Repr

/-- `FashionClassificationSystem.analyze_selected_item`: reject `item_id`
outside `[1, len(detected_items)]` with the fixed error string, otherwise
analyze `detected_items[item_id - 1]`. `analyzeSingle` models
`self._analyze_single_item(opencv_image, item)`; an out-of-range list access
(unreachable under the guard) would surface as the caught-exception failure
branch. -/
def analyzeSelectedItem {α β : Type} (analyzeSingle : α → β) (itemId : ℤ)
    (detectedItems : List α) : SelectResult β :=
  if itemId < 1 ∨ (detectedItems.length : ℤ) < itemId then
    .failure "Invalid item selection"
  else
    match detectedItems.get? (itemId - 1).toNat with
    | some item => .success (analyzeSingle item)
    | none => .failure "list index out of range"

/-- The `except` fallback ladder of
`EnhancedClothingDetector._get_color_name`, used when the webcolors CSS
table is unavailable: brightness rules, dominant-channel rules, and a final
default that names the dominant channel or gray, never the string mixed. -/
def enhancedColorFallback (r g b : ℕ) : String :=
  if r > 200 ∧ g > 200 ∧ b > 200 then "white"
  else if r < 50 ∧ g < 50 ∧ b < 50 then "black"
  else if r > g ∧ r > b then "red"
  else if g > r ∧ g > b then "green"
  else if b > r ∧ b > g then "blue"
  else if r > 150 ∧ g > 150 ∧ b < 100 then "yellow"
  else if r > 150 ∧ g < 100 ∧ b > 150 then "magenta"
  else if r < 100 ∧ g > 150 ∧ b > 150 then "cyan"
  else if r > 150 ∧ g < 150 ∧ b < 150 then "orange"
  else if r < 150 ∧ g > 150 ∧ b < 150 then "lime"
  else if r < 150 ∧ g < 150 ∧ b > 150 then "navy"
  else if r > g ∧ r > b then "red"
  else if g > r ∧ g > b then "green"
  else if b > r ∧ b > g then "blue"
  else "gray"

/-- The `except` fallback ladder of
`FashionClassificationSystem._get_color_name`: its final default is the
string mixed. -/
def fcsColorFallback (r g b : ℕ) : String :=
  if r > 200 ∧ g > 200 ∧ b > 200 then "white"
  else if r < 50 ∧ g < 50 ∧ b < 50 then "black"
  else if r > g + 30 ∧ r > b + 30 then "red"
  else if g > r + 30 ∧ g > b + 30 then "green"
  else if b > r + 30 ∧ b > g + 30 then "blue"
  else if r > 150 ∧ g > 150 ∧ b < 100 then "yellow"
  else if r > 100 ∧ g > 50 ∧ b < 50 then "brown"
  else "mixed"

/-- `ColorAnalyzer._classify_basic_color`: the basic-category ladder used
when the webcolors CSS table is unavailable; its final default is the string
mixed. -/
def classifyBasicColor (r g b : ℕ) : String :=
  if r > 200 ∧ g > 200 ∧ b > 200 then "white"
  else if r < 50 ∧ g < 50 ∧ b < 50 then "black"
  else if ((r : ℤ) - g).natAbs < 30 ∧ ((g : ℤ) - b).natAbs < 30 ∧
      ((r : ℤ) - b).natAbs < 30 then
    (if r > 150 then "lightgray" else if r > 100 then "gray" else "darkgray")
  else if r > g + 50 ∧ r > b + 50 then (if r > 200 then "red" else "darkred")
  else if g > r + 50 ∧ g > b + 50 then (if g > 200 then "lime" else "green")
  else if b > r + 50 ∧ b > g + 50 then (if b > 200 then "blue" else "darkblue")
  else if r > 150 ∧ g > 150 ∧ b < 100 then "yellow"
  else if r > 150 ∧ b > 150 ∧ g < 100 then "magenta"
  else if g > 150 ∧ b > 150 ∧ r < 100 then "cyan"
  else if r > 100 ∧ g > 50 ∧ b < 50 then "brown"
  else if r > 200 ∧ g > 100 ∧ b < 50 then "orange"
  else if r > 150 ∧ b > 100 ∧ g < 100 then "purple"
  else if r > 200 ∧ g > 150 ∧ b > 150 then "pink"
  else "mixed"

/-- A color list is sorted non-increasing by percentage and every entry's
percentage is at least the threshold. -/
def sortedAboveThr (thr : ℚ) (l : List ColorSample) : Prop :=
  List.Sorted percGE l ∧ ∀ c ∈ l, thr ≤ c.percentage

lemma sortedAboveThr_nil (thr : ℚ) : sortedAboveThr thr [] :=
  ⟨List.sorted_nil, by simp⟩

lemma intCast_le_roundTo1 {z : ℤ} {p : ℚ} (h : (z : ℚ) ≤ p) :
    (z : ℚ) ≤ roundTo1 p := by
  unfold roundTo1
  rw [le_div_iff₀ (by norm_num : (0 : ℚ) < 10), round_eq]
  have h1 : (z * 10 : ℤ) ≤ ⌊p * 10 + 1 / 2⌋ := by
    rw [Int.le_floor]
    push_cast
    nlinarith
  exact_mod_cast h1

lemma mem_clusterColorList_le {getName : RGB → String} {thr : ℚ} {total : ℕ}
    {cs : List Cluster} {c : ColorSample} (hz : ∃ z : ℤ, (z : ℚ) = thr)
    (hc : c ∈ clusterColorList getName thr total cs) : thr ≤ c.percentage := by
  obtain ⟨z, rfl⟩ := hz
  unfold clusterColorList sortByPercentageDesc at hc
  rw [List.mem_insertionSort] at hc
  obtain ⟨cl, _, heq⟩ := List.mem_filterMap.mp hc
  by_cases hlt : ((cl.size : ℚ) / (total : ℚ)) * 100 < (z : ℚ)
  · simp [hlt] at heq
  · simp only [hlt, if_false, Option.some.injEq] at heq
    subst heq
    exact intCast_le_roundTo1 (not_lt.mp hlt)

lemma sortedAboveThr_clusterColorList (getName : RGB → String) {thr : ℚ}
    (hz : ∃ z : ℤ, (z : ℚ) = thr) (total : ℕ) (cs : List Cluster) :
    sortedAboveThr thr (clusterColorList getName thr total cs) :=
  ⟨List.sorted_insertionSort percGE _, fun _ hc => mem_clusterColorList_le hz hc⟩

/-- C3: for every input string, `_get_applicable_styles` returns a non-empty
list: when no style's static item list contains the type, the keyword
fallback `_infer_styles_from_type` applies, and every one of its branches
(including the final default `["casual"]`) is non-empty. -/
theorem applicable_styles_ne_nil (ct : String) : getApplicableStyles ct ≠ [] := by
  unfold getApplicableStyles
  dsimp only
  split
  · unfold inferStylesFromType
    dsimp only
    repeat' split
    all_goals simp
  · rename_i h
    exact fun hnil => h (by simp [hnil])

theorem applicable_styles_ne_nil_witness :
    getApplicableStyles "xyzzy" = ["casual"] ∧ getApplicableStyles "xyzzy" ≠ [] :=
  ⟨by decide, applicable_styles_ne_nil "xyzzy"⟩

/-- C4: every color list returned by the region color analyzers is sorted
non-increasing by percentage, and every entry's percentage is at least the
caller's configured minimum threshold — 10 for the enhanced detector's
region analysis, 5 for its masked analysis, 5 for the fashion-classification
and whole-image analyzers, and 15 for the mobile-optimized analyzer — for
every region and every behavior of the clustering, sampling and resizing
collaborators. -/
theorem color_lists_sorted_and_thresholded (getName : RGB → String)
    (sample resize : List RGB → List RGB) (km : ℕ → List RGB → List Cluster)
    (region maskPx fcsRegion caImage simpleRegion : List RGB) :
    sortedAboveThr 10 (analyzeRegionColors getName sample km region)
    ∧ sortedAboveThr 5 (analyzeMaskedColors getName km maskPx)
    ∧ sortedAboveThr 5 (analyzeColorsFCS getName sample km fcsRegion)
    ∧ sortedAboveThr 5 (getDominantColors getName resize km caImage)
    ∧ sortedAboveThr 15 (analyzeRegionColorsSimple getName resize sample km simpleRegion) := by
  refine ⟨?_, ?_, ?_, ?_, ?_⟩
  · unfold analyzeRegionColors
    dsimp only
    repeat' split
    all_goals first
      | exact sortedAboveThr_nil _
      | exact sortedAboveThr_clusterColorList getName ⟨10, by norm_num⟩ _ _
  · unfold analyzeMaskedColors
    dsimp only
    repeat' split
    all_goals first
      | exact sortedAboveThr_nil _
      | exact sortedAboveThr_clusterColorList getName ⟨5, by norm_num⟩ _ _
  · unfold analyzeColorsFCS
    dsimp only
    repeat' split
    all_goals first
      | exact sortedAboveThr_nil _
      | exact sortedAboveThr_clusterColorList getName ⟨5, by norm_num⟩ _ _
  · unfold getDominantColors
    dsimp only
    repeat' split
    all_goals first
      | exact sortedAboveThr_nil _
      | exact sortedAboveThr_clusterColorList getName ⟨5, by norm_num⟩ _ _
  · unfold analyzeRegionColorsSimple
    dsimp only
    repeat' split
    all_goals first
      | exact sortedAboveThr_nil _
      | exact sortedAboveThr_clusterColorList getName ⟨15, by norm_num⟩ _ _

theorem color_lists_sorted_and_thresholded_witness :
    sortedAboveThr 10 (analyzeRegionColors (fun _ => "gray") (fun l => l)
      (fun _ _ => []) []) :=
  (color_lists_sorted_and_thresholded (fun _ => "gray") (fun l => l) (fun l => l)
    (fun _ _ => []) [] [] [] [] []).1

/-- C5: for every region with zero pixels — an empty rectangle for
`_analyze_region_colors`, an empty mask for `_analyze_masked_colors` — the
analyzer returns the empty list (and, being total functions of their
inputs, these embeddings never raise). -/
theorem zero_pixel_regions_empty (getName : RGB → String)
    (sample : List RGB → List RGB) (km : ℕ → List RGB → List Cluster) :
    analyzeRegionColors getName sample km [] = []
    ∧ analyzeMaskedColors getName km [] = [] :=
  ⟨rfl, rfl⟩

theorem zero_pixel_regions_empty_witness :
    analyzeRegionColors (fun _ => "gray") (fun l => l) (fun _ _ => []) [] = [] :=
  (zero_pixel_regions_empty (fun _ => "gray") (fun l => l) (fun _ _ => [])).1

/-- C9: the cluster count the code passes to KMeans is
`min(max_clusters, len(np.unique(pixels.reshape(-1, 3))))`, which counts
distinct scalar channel values, not distinct colors: on a region whose
pixels all equal RGB (10, 20, 30) there is exactly one distinct color, yet
the code computes `min(3, 3) = 3` where the spec's
`min(configured_max_clusters, count_of_distinct_colors)` is 1. -/
theorem nclusters_counts_channel_values_not_colors :
    nClustersOf 3 [({ r := 10, g := 20, b := 30 } : RGB)] = 3
    ∧ distinctColorCount [({ r := 10, g := 20, b := 30 } : RGB)] = 1
    ∧ min 3 (distinctColorCount [({ r := 10, g := 20, b := 30 } : RGB)]) = 1 := by
  decide

/-- C1 counterexample: on the label "leather boots" with an empty mask (hence
an empty color list), the heuristic attribute inference does not return
season all-season — the keyword "boots" is in the winter list, so the season
heuristic returns winter. -/
theorem leather_boots_season_not_all_season :
    (getHeuristicAttributes (fun _ => "unknown") (fun _ _ => [])
      ("leather boots".data) [] []).season ≠ "all-season" := by decide

/-- C1 (amended): for the label "leather boots" with an empty mask (empty
color list, empty mask pixels and coordinates), for every color-naming and
clustering collaborator, the heuristic attribute inference returns style
casual (no style keyword match, default), material leather, season winter
("boots" is a winter keyword), pattern solid, fit regular, and dominant
color unknown. -/
theorem leather_boots_heuristic_attributes (getName : RGB → String)
    (km : ℕ → List RGB → List Cluster) :
    getHeuristicAttributes getName km ("leather boots".data) [] [] =
      { dominant_color := "unknown", style := "casual", season := "winter"
        material := "leather", pattern := "solid", fit := "regular"
        detection_method := "heuristic" } := rfl

theorem leather_boots_heuristic_attributes_witness :
    getHeuristicAttributes (fun _ => "unknown") (fun _ _ => [])
      ("leather boots".data) [] [] =
      { dominant_color := "unknown", style := "casual", season := "winter"
        material := "leather", pattern := "solid", fit := "regular"
        detection_method := "heuristic" } :=
  leather_boots_heuristic_attributes (fun _ => "unknown") (fun _ _ => [])

/-- C2 counterexample: `_classify_clothing_type` is not idempotent on the
ClothingType key "button-shirt": the key does not occur in its own variation
list and no substring match fires, so the keyword fallback ("shirt" is a
substring) returns t-shirt. -/
theorem classify_button_shirt_changes :
    classifyClothingType "button-shirt" = "t-shirt"
    ∧ classifyClothingType "button-shirt" ≠ "button-shirt" := by decide

/-- The 22 ClothingType keys on which `_classify_clothing_type` is the
identity: every key of the table except the nine hyphenated composites
button-shirt, crop-top, tube-top, cargo-pants, dress-pants, cargo-shorts,
maxi-dress, mini-dress and cocktail-dress (those normalize to t-shirt,
t-shirt, t-shirt, jeans, dress, shorts, dress, dress and dress). -/
def idempotentClothingKeys : List String :=
  ["t-shirt", "polo", "hoodie", "sweater", "blazer", "jacket", "blouse",
   "jeans", "chinos", "shorts", "skirt", "leggings", "joggers", "dress",
   "sneakers", "boots", "loafers", "heels", "sandals", "hat", "bag", "belt"]

/-- C2 (amended): `_classify_clothing_type` is idempotent on every
ClothingType key whose variation list contains the key itself (plus heels,
matched as a substring of high heels) — i.e. on all 22 keys of the table
other than the nine hyphenated composites. -/
theorem classify_idempotent_on_plain_keys :
    ∀ t ∈ idempotentClothingKeys, classifyClothingType t = t := by decide

theorem classify_idempotent_on_plain_keys_witness :
    classifyClothingType "t-shirt" = "t-shirt" :=
  classify_idempotent_on_plain_keys "t-shirt" (by decide)

/-- C6 counterexample: the fallback color-naming ladder of
`FashionClassificationSystem._get_color_name` returns the string mixed for
the in-range RGB triple (100, 100, 100), which falls through every rule. -/
theorem fcs_fallback_returns_mixed :
    fcsColorFallback 100 100 100 = "mixed" := by decide

set_option maxHeartbeats 4000000

/-- C6 (amended): the enhanced detector's fallback color-naming ladder
(`EnhancedClothingDetector._get_color_name`) never returns the string mixed
for any RGB triple — every branch, including the final dominant-channel /
gray default, returns a specific name. The other two fallback ladders
(`FashionClassificationSystem._get_color_name` and
`ColorAnalyzer._classify_basic_color`) do end in a mixed default. -/
theorem enhanced_fallback_never_mixed (r g b : ℕ) :
    enhancedColorFallback r g b ≠ "mixed" := by
  unfold enhancedColorFallback
  split_ifs
  all_goals decide

theorem enhanced_fallback_never_mixed_witness :
    enhancedColorFallback 120 90 140 = "blue"
    ∧ enhancedColorFallback 120 90 140 ≠ "mixed" :=
  ⟨by decide, enhanced_fallback_never_mixed 120 90 140⟩

/-- The basic-category ladder of `ColorAnalyzer._classify_basic_color` also
ends in a mixed default, e.g. at (120, 90, 140); recorded here alongside C6's
counterexample for the third named fallback. -/
lemma classify_basic_color_mixed_example :
    classifyBasicColor 120 90 140 = "mixed" := by decide

/-- C7 counterexample: on the no-mask (basic) path, `_get_basic_attributes`
returns material unknown for every label — in particular for "hat", which
matches none of the material keywords — not the claimed cotton default. -/
theorem basic_attributes_material_unknown :
    (getBasicAttributes "hat").material = "unknown"
    ∧ (getBasicAttributes "hat").material ≠ "cotton" := by decide

/-- C7 (amended): for every label matching none of the material keywords
(jean, leather, boots, cotton, t-shirt, wool, sweater, silk, dress), the
masked (heuristic) path defaults to material cotton, while the no-mask
(basic) path `_get_basic_attributes` returns material unknown. -/
theorem material_default_heuristic_vs_basic (label : String)
    (h1 : hasSub "jean".data (lowerStr label.data) = false)
    (h2 : anyKeyword ["leather", "boots"] (lowerStr label.data) = false)
    (h3 : anyKeyword ["cotton", "t-shirt"] (lowerStr label.data) = false)
    (h4 : anyKeyword ["wool", "sweater"] (lowerStr label.data) = false)
    (h5 : anyKeyword ["silk", "dress"] (lowerStr label.data) = false) :
    predictMaterialHeuristic label.data = "cotton"
    ∧ (getBasicAttributes label).material = "unknown" := by
  refine ⟨?_, rfl⟩
  unfold predictMaterialHeuristic
  simp [h1, h2, h3, h4, h5]

theorem material_default_heuristic_vs_basic_witness :
    predictMaterialHeuristic ("hat".data) = "cotton"
    ∧ (getBasicAttributes "hat").material = "unknown" :=
  material_default_heuristic_vs_basic "hat" (by decide) (by decide) (by decide)
    (by decide) (by decide)

/-- C8: when YOLO finds no clothing item but a person box
(x1, y1, x2, y2) with confidence conf, the per-person fallback produces at
most two detections; every produced detection has confidence exactly
conf × 0.8 and is either the shirt detection over the top 60% of the box
height (y1 to y1 + ⌊0.6·height⌋) or the pants detection over the bottom
60% (y1 + ⌊0.4·height⌋ to y2), carrying that region's color analysis,
which is non-empty; and each of the two appears exactly when its region's
color analysis is non-empty. -/
theorem person_fallback_spec (analyze : ℤ → ℤ → ℤ → ℤ → List ColorSample)
    (x1 y1 x2 y2 : ℤ) (conf : ℚ) :
    (personFallback analyze x1 y1 x2 y2 conf).length ≤ 2
    ∧ (∀ d ∈ personFallback analyze x1 y1 x2 y2 conf,
        d.confidence = conf * 8 / 10 ∧
        ((d.label = "shirt"
            ∧ d.bounding_box =
              ⟨x1, y1, x2, upperCut y1 y2, x2 - x1, upperCut y1 y2 - y1⟩
            ∧ d.colors = analyze x1 y1 x2 (upperCut y1 y2) ∧ d.colors ≠ [])
          ∨ (d.label = "pants"
            ∧ d.bounding_box =
              ⟨x1, lowerCut y1 y2, x2, y2, x2 - x1, y2 - lowerCut y1 y2⟩
            ∧ d.colors = analyze x1 (lowerCut y1 y2) x2 y2 ∧ d.colors ≠ [])))
    ∧ (analyze x1 y1 x2 (upperCut y1 y2) ≠ [] →
        ∃ d ∈ personFallback analyze x1 y1 x2 y2 conf, d.label = "shirt")
    ∧ (analyze x1 (lowerCut y1 y2) x2 y2 ≠ [] →
        ∃ d ∈ personFallback analyze x1 y1 x2 y2 conf, d.label = "pants") := by
  unfold personFallback
  dsimp only
  by_cases hu : (analyze x1 y1 x2 (upperCut y1 y2)).isEmpty <;>
    by_cases hl : (analyze x1 (lowerCut y1 y2) x2 y2).isEmpty <;>
    rw [List.isEmpty_iff] at hu hl <;>
    simp_all

theorem person_fallback_spec_witness :
    (personFallback (fun _ _ _ _ => []) 0 0 10 20 1).length ≤ 2 :=
  (person_fallback_spec (fun _ _ _ _ => []) 0 0 10 20 1).1

/-- C10: `analyze_selected_item` rejects every item number outside
[1, len(detected_items)] with the fixed error, and for every item number in
range it analyzes exactly the item at index item_id − 1 and wraps the
analysis in a success result. -/
theorem analyze_selected_item_spec {α β : Type} (f : α → β) (itemId : ℤ)
    (items : List α) :
    ((itemId < 1 ∨ (items.length : ℤ) < itemId) →
      analyzeSelectedItem f itemId items = .failure "Invalid item selection")
    ∧ (1 ≤ itemId → itemId ≤ (items.length : ℤ) →
      ∃ item, items.get? (itemId - 1).toNat = some item ∧
        analyzeSelectedItem f itemId items = .success (f item)) := by
  constructor
  · intro h
    unfold analyzeSelectedItem
    rw [if_pos h]
  · intro h1 h2
    have hnotlt : ¬(itemId < 1 ∨ (items.length : ℤ) < itemId) := by
      push_neg
      exact ⟨h1, h2⟩
    have hidx : (itemId - 1).toNat < items.length := by omega
    refine ⟨items.get ⟨(itemId - 1).toNat, hidx⟩, List.get?_eq_get hidx, ?_⟩
    unfold analyzeSelectedItem
    rw [if_neg hnotlt, List.get?_eq_get hidx]

theorem analyze_selected_item_spec_witness :
    analyzeSelectedItem (fun n : ℕ => n + 1) 0 [5] = .failure "Invalid item selection"
    ∧ ∃ item, ([5, 7].get? ((2 : ℤ) - 1).toNat = some item ∧
        analyzeSelectedItem (fun n : ℕ => n + 1) 2 [5, 7] = .success (item + 1)) :=
  ⟨(analyze_selected_item_spec (fun n : ℕ => n + 1) 0 [5]).1 (Or.inl (by decide)),
   (analyze_selected_item_spec (fun n : ℕ => n + 1) 2 [5, 7]).2 (by decide) (by decide)⟩

end DressApp
